import Mathlib

/-!
Verification of the session conversation engine of the chatbot repository:
the Initial/Flow/RAG mode state machine of the FastAPI boundary adapter
(`src/chatbotapi/src/chat/infrastructure/api.py`), the per-field validation
schema (`src/chatbotapi/src/chat/domain/flow_definition.py`), and the hybrid
answer router (`src/chatbotapi/src/chat/application/convo/response_generation.py`).

The Python code is shallowly embedded: the mutable per-session dictionary
becomes an explicit `SessionState` value threaded through `submit_flow_step`;
the external classifier/retriever/generator capabilities become a function
parameter returning `Except` (a raised exception is an `.error`).
-/

namespace Chatbot

/-- `pat in s` of Python: `pat` occurs as a contiguous substring of `s`. -/
def containsSub (s pat : String) : Bool :=
  (List.range (s.length + 1)).any (fun i => pat.toList.isPrefixOf (s.toList.drop i))

/-- Python `str.lower()` (ASCII range, which covers every input the engine
compares). -/
def pyLower (s : String) : String :=
  String.mk (s.toList.map Char.toLower)

/-- Python `str.upper()` (ASCII range). -/
def pyUpper (s : String) : String :=
  String.mk (s.toList.map Char.toUpper)

/-- Python `str.strip()` with no argument: drop leading and trailing
whitespace. -/
def pyStrip (s : String) : String :=
  String.mk (((s.toList.dropWhile Char.isWhitespace).reverse.dropWhile
    Char.isWhitespace).reverse)

/-- Accumulating splitter behind `pySplit`: `acc` holds the current
non-whitespace run, reversed. -/
def pySplitGo : List Char → List Char → List String
  | acc, [] => if acc = [] then [] else [String.mk acc.reverse]
  | acc, c :: rest =>
    if c.isWhitespace then
      if acc = [] then pySplitGo [] rest
      else String.mk acc.reverse :: pySplitGo [] rest
    else pySplitGo (c :: acc) rest

/-- Python `str.split()` with no argument: split on runs of whitespace,
discarding empty pieces. -/
def pySplit (s : String) : List String :=
  pySplitGo [] s.toList

/-- Fuel-indexed worker for `pyReplace`; the fuel is the length of the
remaining text, so the `0, s` row is unreachable for nonempty `s`. -/
def pyReplaceGo (pat rep : List Char) : Nat → List Char → List Char
  | _, [] => []
  | 0, s => s
  | fuel + 1, c :: rest =>
    if pat ≠ [] ∧ pat.isPrefixOf (c :: rest) then
      rep ++ pyReplaceGo pat rep fuel (rest.drop (pat.length - 1))
    else c :: pyReplaceGo pat rep fuel rest

/-- Python `str.replace(pat, rep)` for a nonempty `pat` (the engine's only
call site uses the fixed pattern `"[name]"`): replace every non-overlapping
occurrence, left to right. -/
def pyReplace (s pat rep : String) : String :=
  String.mk (pyReplaceGo pat.toList rep.toList s.toList.length s.toList)

/-- The digit part accepted by Python `int()` on a string: one or more digits,
optionally separated by single underscores (`1_000`); no leading, trailing or
doubled underscore. Returns the value in base 10. -/
def parseDigits : List Char → Option Nat
  | [] => none
  | c :: rest =>
    if c.isDigit then parseDigitsGo (c.toNat - 48) rest else none
where
  parseDigitsGo : Nat → List Char → Option Nat
  | acc, [] => some acc
  | acc, '_' :: c :: rest =>
    if c.isDigit then parseDigitsGo (acc * 10 + (c.toNat - 48)) rest else none
  | acc, c :: rest =>
    if c.isDigit then parseDigitsGo (acc * 10 + (c.toNat - 48)) rest else none

/-- Python `int(v)` on a string: strip surrounding whitespace, optional sign,
then digits (with underscore grouping); `none` models a raised `ValueError`. -/
def pythonInt (s : String) : Option Int :=
  match (pyStrip s).toList with
  | '+' :: rest => (parseDigits rest).map Int.ofNat
  | '-' :: rest => (parseDigits rest).map (fun n => -(Int.ofNat n))
  | cs => (parseDigits cs).map Int.ofNat

/-! ## Domain layer: `flow_definition.py` -/

/-- `ProjectData.validate_name` (`mode='before'`): rejects an empty value or a
value shorter than 3 characters. `.error` models a raised `ValueError`. -/
def validate_name (v : String) : Except String String :=
  if v = "" ∨ v.length < 3 then .error "Name must be at least 3 characters long."
  else .ok v

/-- `ProjectData.validate_project_type`: rejects an empty value or one that
splits on whitespace into fewer than 2 tokens. -/
def validate_project_type (v : String) : Except String String :=
  if v = "" ∨ (pySplit v).length < 2 then
    .error "Project type must be described in at least two words."
  else .ok v

/-- `ProjectData.validate_duration`: `int(v)` then `num <= 0` check. In the
source the inner `ValueError("Duration must be a positive number of weeks.")`
is caught by the surrounding `except ValueError`, so both failure paths
surface the message "Duration must be a valid integer.". -/
def validate_duration (v : String) : Except String Int :=
  match pythonInt v with
  | none => .error "Duration must be a valid integer."
  | some num =>
    if num ≤ 0 then .error "Duration must be a valid integer."
    else .ok num

/-- `ProjectData.validate_budget`: `int(v)` then `num <= 100` check; as with
duration, the inner `ValueError` is caught by the `except`, so both failure
paths surface "Budget must be a valid integer.". -/
def validate_budget (v : String) : Except String Int :=
  match pythonInt v with
  | none => .error "Budget must be a valid integer."
  | some num =>
    if num ≤ 100 then .error "Budget must be a valid integer."
    else .ok num

/-- Validation of a single field, as performed by `submit_flow_step`: it builds
a `TempValidator` model in which every field except `current_key` is
`Optional` with default `None` (pydantic does not run validators on defaults),
so exactly the one field's `mode='before'` validator runs. The `.error` value
is the pydantic v2 rendering `err['msg']` of the raised `ValueError`, which
prefixes the message with "Value error, ". -/
def validateField (field v : String) : Except String Unit :=
  let wrap {α : Type} : Except String α → Except String Unit
    | .error e => .error ("Value error, " ++ e)
    | .ok _ => .ok ()
  if field = "name" then wrap (validate_name v)
  else if field = "projectType" then wrap (validate_project_type v)
  else if field = "duration" then wrap (validate_duration v)
  else if field = "budget" then wrap (validate_budget v)
  else .ok ()

/-- One entry of `CHAT_FLOW`. -/
structure FlowStep where
  key : String
  prompt : String
  placeholder : String
  model_field : String
deriving Repr, DecidableEq

/-- The conversation flow definition `CHAT_FLOW` of `flow_definition.py`. -/
def CHAT_FLOW : List FlowStep :=
  [ { key := "name",
      prompt := "Welcome! To start, what is your **full name**?",
      placeholder := "e.g., Alex Johnson",
      model_field := "name" },
    { key := "projectType",
      prompt := "What **type of project** are you planning?",
      placeholder := "e.g., Web App, Data Analysis, Chatbot",
      model_field := "projectType" },
    { key := "duration",
      prompt := "Approximately how many **weeks** will the project take?",
      placeholder := "e.g., 8",
      model_field := "duration" },
    { key := "budget",
      prompt := "What is the approximate **budget** for this project (in USD)?",
      placeholder := "e.g., 10000",
      model_field := "budget" } ]

/-! ## Infrastructure layer: `api.py` -/

/-- One entry of a session's `history` list: a `{"role": ..., "content": ...}`
dictionary, with the optional `"key"` carried by assistant Flow prompts. -/
structure Msg where
  role : String
  content : String
  key : Option String
deriving Repr, DecidableEq

/-- Per-session state, as initialized by `get_session`. `answers` is the
Python dictionary, embedded as an association list in insertion order. -/
structure SessionState where
  mode : String
  step_index : Nat
  answers : List (String × String)
  history : List Msg
  is_complete : Bool
deriving Repr, DecidableEq

/-- The fresh state `get_session` installs for an unseen session id. -/
def initSession : SessionState :=
  { mode := "initial", step_index := 0, answers := [], history := [], is_complete := false }

/-- `FlowResponse`, the uniform response envelope. -/
structure FlowResponse where
  status : String
  bot_message : String
  is_complete : Bool
  data : List (String × String)
  mode : String
deriving Repr, DecidableEq

/-- Python dictionary update `d[k] = v`: overwrite the value at an existing
key in place, otherwise append the new binding. -/
def dictSet (d : List (String × String)) (k v : String) : List (String × String) :=
  if d.any (fun p => p.1 = k) then d.map (fun p => if p.1 = k then (k, v) else p)
  else d ++ [(k, v)]

/-- Python dictionary read `d.get(k, dflt)`. -/
def dictGetD (d : List (String × String)) (k dflt : String) : String :=
  match d.find? (fun p => p.1 = k) with
  | some p => p.2
  | none => dflt

def INITIAL_PROMPT : String :=
  "Hello! I am a modular chatbot. Would you like to use the **Flow-based Project Planner** or the **Jordan Peterson RAG Chatbot**? (Respond with 'Flow' or 'RAG')."

def INVALID_MODE_MESSAGE : String :=
  "I couldn't understand that. Please respond with 'Flow' to start the Project Planner or 'RAG' to start the Jordan Peterson Chatbot."

/-- The validation stage of the Flow branch of `submit_flow_step` (the body of
`if current_step_index < len(CHAT_FLOW): ... if user_input:`). `.error r`
models the early `return` of a validation-error response; `.ok` carries the
state after the accepted answer is recorded (or unchanged when the stage is
skipped). -/
def flowValidate (flow_state : SessionState) (user_input : String) :
    Except FlowResponse SessionState :=
  if h : flow_state.step_index < CHAT_FLOW.length then
    let current_step := CHAT_FLOW.get ⟨flow_state.step_index, h⟩
    if user_input = "" then .ok flow_state
    else
      match validateField current_step.key user_input with
      | .ok _ =>
        .ok { flow_state with
              answers := dictSet flow_state.answers current_step.key user_input,
              history := flow_state.history ++ [⟨"user", user_input, none⟩],
              step_index := flow_state.step_index + 1 }
      | .error error_msg =>
        .error { status := "validation_error",
                 bot_message := "Input Error: " ++ error_msg ++ " Please try again.",
                 is_complete := false,
                 data := flow_state.answers,
                 mode := "flow" }
  else .ok flow_state

/-- The "Determine Next Message/Completion" stage of the Flow branch. -/
def flowNext (flow_state : SessionState) : SessionState × FlowResponse :=
  if h : flow_state.step_index < CHAT_FLOW.length then
    let next_step := CHAT_FLOW.get ⟨flow_state.step_index, h⟩
    let name := dictGetD flow_state.answers "name" "there"
    let bot_message := pyReplace next_step.prompt "[name]" name
    let flow_state :=
      { flow_state with
        history := flow_state.history ++ [⟨"assistant", bot_message, some next_step.key⟩] }
    (flow_state,
     { status := "success", bot_message := bot_message, is_complete := false,
       data := flow_state.answers, mode := "flow" })
  else
    let flow_state := { flow_state with is_complete := true }
    (flow_state,
     { status := "success", bot_message := "Thank you! The flow is now complete.",
       is_complete := true, data := flow_state.answers, mode := "flow" })

/-- The whole Flow branch (`if current_mode == 'flow':`). -/
def flowLogic (flow_state : SessionState) (user_input : String) :
    SessionState × FlowResponse :=
  if flow_state.is_complete then
    (flow_state,
     { status := "complete",
       bot_message := "Flow is already complete. Use /flow/reset to start over.",
       is_complete := true, data := flow_state.answers, mode := "flow" })
  else
    match flowValidate flow_state user_input with
    | .error resp => (flow_state, resp)
    | .ok flow_state => flowNext flow_state

/-- The RAG branch (`if current_mode == 'rag':`). `gen` is the
`HYBRID_GENERATOR` call: `.ok` is `result['response']`, `.error e` models a
raised exception rendered as the string `e` (the `except Exception` handler).
The user entry is appended to `history` before the generator runs. -/
def ragLogic (gen : String → Except String String) (flow_state : SessionState)
    (user_input : String) : SessionState × FlowResponse :=
  if user_input = "" then
    (flow_state,
     { status := "success", bot_message := "RAG Chatbot is active. Ask your question.",
       is_complete := false, data := [], mode := "rag" })
  else
    let flow_state :=
      { flow_state with history := flow_state.history ++ [⟨"user", user_input, none⟩] }
    match gen user_input with
    | .ok bot_message =>
      let flow_state :=
        { flow_state with history := flow_state.history ++ [⟨"assistant", bot_message, none⟩] }
      (flow_state,
       { status := "success", bot_message := bot_message, is_complete := false,
         data := [], mode := "rag" })
    | .error e =>
      (flow_state,
       { status := "error",
         bot_message := "An error occurred while processing the RAG query: " ++ e,
         is_complete := false, data := [], mode := "rag" })

/-- Sections 1 (RAG), 2 (Flow) and the unexpected-state fallback of
`submit_flow_step`, reached after the Initial-mode block (which may have just
set `mode = 'flow'` and fallen through with `user_input` still set). -/
def modeDispatch (gen : String → Except String String)
    (flow_state : SessionState) (user_input : String) :
    SessionState × FlowResponse :=
  if flow_state.mode = "rag" then ragLogic gen flow_state user_input
  else if flow_state.mode = "flow" then flowLogic flow_state user_input
  else
    (flow_state,
     { status := "error",
       bot_message := "An unexpected state was reached. Please reset the flow.",
       is_complete := false, data := [], mode := "initial" })

/-- The `/flow/submit` handler `submit_flow_step`, acting on the state of one
session: returns the stored state after the turn together with the response.
Mirrors the source's control flow: the Initial block may set `mode = 'flow'`
and fall through to the Flow branch with `user_input` still set. -/
def submit_flow_step (gen : String → Except String String)
    (flow_state : SessionState) (user_input : String) :
    SessionState × FlowResponse :=
  if flow_state.mode = "initial" then
    if user_input = "" then
      (flow_state,
       { status := "success", bot_message := INITIAL_PROMPT, is_complete := false,
         data := [], mode := "initial" })
    else
      let lower_input := pyStrip (pyLower user_input)
      if containsSub lower_input "flow" then
        modeDispatch gen { flow_state with mode := "flow" } user_input
      else if containsSub lower_input "rag" then
        let flow_state :=
          { flow_state with
              mode := "rag",
              history := flow_state.history ++ [⟨"user", user_input, none⟩] }
        (flow_state,
         { status := "success",
           bot_message := "RAG Chatbot selected. Ask me any question about Jordan Peterson.",
           is_complete := false, data := [], mode := "rag" })
      else
        let flow_state :=
          { flow_state with history := flow_state.history ++ [⟨"user", user_input, none⟩] }
        (flow_state,
         { status := "validation_error", bot_message := INVALID_MODE_MESSAGE,
           is_complete := false, data := [], mode := "initial" })
  else modeDispatch gen flow_state user_input

/-- The process-wide `API_SESSIONS` store, keyed by session id. -/
def lookupSession (store : List (String × SessionState)) (sid : String) :
    Option SessionState :=
  (store.find? (fun p => p.1 = sid)).map (fun p => p.2)

/-- `get_session`: the state observed for `sid` (a missing id is initialized
to the fresh state). -/
def get_session (store : List (String × SessionState)) (sid : String) : SessionState :=
  (lookupSession store sid).getD initSession

/-- The `/flow/reset` handler `reset_flow`: drop the session's entry and
return the fixed reset response. -/
def reset_flow (store : List (String × SessionState)) (sid : String) :
    List (String × SessionState) × FlowResponse :=
  (store.filter (fun p => p.1 ≠ sid),
   { status := "success", bot_message := "Flow state reset. Please start your conversation.",
     is_complete := false, data := [], mode := "initial" })

/-! ## Hybrid router: `response_generation.py` -/

/-- The two dispatch targets of `HybridGenerator._build_hybrid_chain`'s
`RunnableBranch`: the retrieval-grounded `rag_chain` and the
`direct_llm_chain`. -/
inductive Path where
  | rag
  | llm
deriving Repr, DecidableEq

/-- The router condition: the classifier output's `.content` is stripped
(`classification=intent_chain | (lambda x: x.content.strip())`) and the
branch tests `x["classification"].upper() == "RAG"`; every other output falls
to the default `direct_llm_chain`. -/
def routeClassification (content : String) : Path :=
  if pyUpper (pyStrip content) = "RAG" then .rag else .llm

/-! ## Helper lemmas -/

theorem find?_filter_ne (store : List (String × SessionState)) (sid : String) :
    (store.filter (fun p => p.1 ≠ sid)).find? (fun p => p.1 = sid) = none := by
  induction store with
  | nil => rfl
  | cons p t ih =>
    by_cases h : p.1 = sid <;> simp [List.filter_cons, h, List.find?, ih]

theorem find?_map_overwrite_ne (t : List (String × String)) (k v k' : String)
    (hk : k' ≠ k) :
    (t.map (fun p => if p.1 = k then (k, v) else p)).find? (fun p => p.1 = k') =
    t.find? (fun p => p.1 = k') := by
  induction t with
  | nil => rfl
  | cons p t ih =>
    by_cases hp : p.1 = k
    · have h1 : ¬p.1 = k' := fun h => hk (h ▸ hp ▸ rfl)
      simp only [List.map_cons, hp, if_true]
      rw [List.find?_cons_of_neg _ (by simpa using fun h => hk h.symm),
          List.find?_cons_of_neg _ (by simpa using h1), ih]
    · simp only [List.map_cons, hp, if_false]
      by_cases hpk : p.1 = k'
      · rw [List.find?_cons_of_pos _ (by simpa using hpk),
            List.find?_cons_of_pos _ (by simpa using hpk)]
      · rw [List.find?_cons_of_neg _ (by simpa using hpk),
            List.find?_cons_of_neg _ (by simpa using hpk), ih]

theorem find?_map_overwrite_self (t : List (String × String)) (k v : String) :
    (t.map (fun p => if p.1 = k then (k, v) else p)).find? (fun p => p.1 = k) =
    if t.any (fun p => p.1 = k) then some (k, v) else none := by
  induction t with
  | nil => rfl
  | cons p t ih =>
    by_cases hp : p.1 = k
    · simp only [List.map_cons, hp, if_true, List.any_cons]
      rw [List.find?_cons_of_pos _ (by simp)]
      simp [hp]
    · simp only [List.map_cons, hp, if_false, List.any_cons]
      rw [List.find?_cons_of_neg _ (by simpa using hp), ih]
      simp [hp]
      rfl

theorem dictGetD_dictSet (d : List (String × String)) (k v k' dflt : String) :
    dictGetD (dictSet d k v) k' dflt = if k' = k then v else dictGetD d k' dflt := by
  by_cases hmem : d.any (fun p => p.1 = k)
  · simp only [dictSet, hmem, if_true]
    by_cases hk : k' = k
    · subst hk
      simp only [dictGetD, find?_map_overwrite_self, hmem, if_true]
    · simp only [dictGetD, find?_map_overwrite_ne d k v k' hk, hk, if_false]
  · have hnone : d.find? (fun p => p.1 = k) = none := by
      rw [List.find?_eq_none]
      intro p hp hcontra
      exact hmem (List.any_eq_true.mpr ⟨p, hp, hcontra⟩)
    have hmem' : d.any (fun p => p.1 = k) = false := by
      cases h : d.any (fun p => p.1 = k)
      · rfl
      · exact absurd h hmem
    simp only [dictSet, hmem', Bool.false_eq_true, if_false]
    by_cases hk : k' = k
    · subst hk
      simp only [dictGetD, List.find?_append, hnone, Option.none_or]
      rw [List.find?_cons_of_pos _ (by simp)]
      simp
    · simp only [dictGetD, List.find?_append, hk, if_false]
      have h2 : ([(k, v)].find? (fun p => p.1 = k')) = none := by
        rw [List.find?_eq_none]
        intro p hp
        simp only [List.mem_singleton] at hp
        subst hp
        simpa using fun h => hk h.symm
      rw [h2]
      cases d.find? (fun p => p.1 = k') <;> rfl

theorem flowNext_frame (s : SessionState) :
    (flowNext s).1.step_index = s.step_index ∧
    (flowNext s).1.mode = s.mode ∧
    (flowNext s).1.answers = s.answers ∧
    (flowNext s).2.mode = "flow" := by
  unfold flowNext
  split <;> simp

theorem flowValidate_ok_cases (s : SessionState) (inp : String) (s' : SessionState)
    (h : flowValidate s inp = .ok s') :
    s' = s ∨
    (s'.step_index = s.step_index + 1 ∧ s.step_index < CHAT_FLOW.length ∧
     s'.mode = s.mode ∧ s'.is_complete = s.is_complete) := by
  simp only [flowValidate] at h
  split at h
  · split at h
    · left; exact (Except.ok.inj h).symm
    · split at h
      · right
        have := (Except.ok.inj h).symm
        subst this
        refine ⟨rfl, by assumption, rfl, rfl⟩
      · exact absurd h (by simp)
  · left; exact (Except.ok.inj h).symm

theorem ragLogic_frame (gen : String → Except String String) (s : SessionState)
    (inp : String) :
    (ragLogic gen s inp).1.step_index = s.step_index ∧
    (ragLogic gen s inp).1.answers = s.answers ∧
    (ragLogic gen s inp).1.mode = s.mode ∧
    (ragLogic gen s inp).1.is_complete = s.is_complete ∧
    (ragLogic gen s inp).2.is_complete = false ∧
    (ragLogic gen s inp).2.mode = "rag" := by
  unfold ragLogic
  split
  · simp
  · split <;> simp

theorem flowLogic_step_cases (s : SessionState) (inp : String) :
    (flowLogic s inp).1.step_index = s.step_index ∨
    ((flowLogic s inp).1.step_index = s.step_index + 1 ∧
     s.step_index < CHAT_FLOW.length) := by
  unfold flowLogic
  split
  · left; rfl
  · rcases hv : flowValidate s inp with resp | s'
    · left; rfl
    · have hframe := (flowNext_frame s').1
      rcases flowValidate_ok_cases s inp s' hv with heq | ⟨hstep, hlt, _, _⟩
      · left
        show (flowNext s').1.step_index = s.step_index
        rw [hframe, heq]
      · right; simp [hframe, hstep, hlt]

theorem flowLogic_mode (s : SessionState) (inp : String) :
    (flowLogic s inp).1.mode = s.mode ∧ (flowLogic s inp).2.mode = "flow" := by
  unfold flowLogic
  split
  · simp
  · rcases hv : flowValidate s inp with resp | s'
    · constructor
      · rfl
      · simp only [flowValidate] at hv
        split at hv
        · split at hv
          · exact absurd hv (by simp)
          · split at hv
            · exact absurd hv (by simp)
            · have := (Except.error.inj hv).symm
              subst this; rfl
        · exact absurd hv (by simp)
    · have := flowNext_frame s'
      rcases flowValidate_ok_cases s inp s' hv with heq | ⟨_, _, hmode, _⟩
      · exact ⟨by rw [this.2.1, heq], this.2.2.2⟩
      · exact ⟨by rw [this.2.1, hmode], this.2.2.2⟩

/-! ## Claim theorems -/

/-- C1: the claim says that submitting an input containing "flow" to an
Initial-mode session switches the mode to Flow, leaves `stepIndex` at 0, and
returns the first FlowStep's prompt (the name question) with no answer
recorded. The code disagrees: after setting `mode = 'flow'` it falls through
to the Flow branch with the non-empty input still set — despite its own
comment "Validation (Skip for initial empty call or just after mode
selection)" — so the mode-selection text "Flow" is validated as the `name`
answer (it passes, having ≥ 3 characters), `answers['name']` is recorded,
`step_index` becomes 1, and the second step's prompt is returned. This
theorem evaluates the embedded code at the failing input. -/
theorem C1_flow_selection_consumes_input :
    (submit_flow_step (fun _ => .error "offline") initSession "Flow").1.mode = "flow" ∧
    (submit_flow_step (fun _ => .error "offline") initSession "Flow").1.step_index = 1 ∧
    (submit_flow_step (fun _ => .error "offline") initSession "Flow").1.answers =
      [("name", "Flow")] ∧
    (submit_flow_step (fun _ => .error "offline") initSession "Flow").2.bot_message =
      "What **type of project** are you planning?" := by
  refine ⟨by decide, by decide, by decide, by decide⟩

/-- C2 counterexample: the claim requires that a failed RAG turn not leave a
dangling user entry in `history` without a corresponding assistant entry (or
mark the turn as failed). At the concrete input below the generator raises,
the adapter answers with status "error", and the stored history holds exactly
one entry — the user's query, with no assistant entry and no failure marker —
so the claim as stated is false. -/
theorem C2_counterexample :
    (submit_flow_step (fun _ => .error "boom")
      { initSession with mode := "rag" } "hi").2.status = "error" ∧
    (submit_flow_step (fun _ => .error "boom")
      { initSession with mode := "rag" } "hi").1.history =
      [{ role := "user", content := "hi", key := none }] := by
  refine ⟨by decide, by decide⟩

/-- C2 (amended): for a RAG-mode session whose capability call raises, the
adapter returns status "error" with a human-readable message and does not
crash; `mode`, `stepIndex`, `answers` and `isComplete` are untouched, but the
user's input has been appended to `history` before the failing call, so the
failed turn leaves a dangling user entry with no assistant entry. -/
theorem C2_rag_failure_reports_error (gen : String → Except String String)
    (s : SessionState) (inp e : String)
    (hm : s.mode = "rag") (hne : inp ≠ "") (hg : gen inp = .error e) :
    (submit_flow_step gen s inp).2.status = "error" ∧
    (submit_flow_step gen s inp).2.bot_message =
      "An error occurred while processing the RAG query: " ++ e ∧
    (submit_flow_step gen s inp).1.mode = s.mode ∧
    (submit_flow_step gen s inp).1.step_index = s.step_index ∧
    (submit_flow_step gen s inp).1.answers = s.answers ∧
    (submit_flow_step gen s inp).1.is_complete = s.is_complete ∧
    (submit_flow_step gen s inp).1.history =
      s.history ++ [{ role := "user", content := inp, key := none }] := by
  have hni : ¬s.mode = "initial" := by rw [hm]; decide
  unfold submit_flow_step
  rw [if_neg hni]
  unfold modeDispatch
  rw [if_pos hm]
  unfold ragLogic
  rw [if_neg hne]
  simp [hg, hm]

/-- C2 witness: the amended theorem applied at a concrete failing generator. -/
theorem C2_witness :
    ({ initSession with mode := "rag" } : SessionState).mode = "rag" ∧
    ("hi" : String) ≠ "" ∧
    (submit_flow_step (fun _ => .error "boom")
      { initSession with mode := "rag" } "hi").2.status = "error" ∧
    (submit_flow_step (fun _ => .error "boom")
      { initSession with mode := "rag" } "hi").1.history =
      ({ initSession with mode := "rag" } : SessionState).history ++
        [{ role := "user", content := "hi", key := none }] := by
  have h := C2_rag_failure_reports_error (fun _ => .error "boom")
    { initSession with mode := "rag" } "hi" "boom" rfl (by decide) rfl
  exact ⟨rfl, by decide, h.1, h.2.2.2.2.2.2⟩

/-- C3 counterexample: the claim says an unrecognized mode-selection input is
not appended to the session's history. At the concrete input "hello" the
response is a validation error and the mode stays Initial, but the stored
history has gained the user entry, so the claim as stated is false. -/
theorem C3_counterexample :
    (submit_flow_step (fun _ => .error "offline") initSession "hello").2.status =
      "validation_error" ∧
    (submit_flow_step (fun _ => .error "offline") initSession "hello").1.mode =
      "initial" ∧
    (submit_flow_step (fun _ => .error "offline") initSession "hello").1.history =
      [{ role := "user", content := "hello", key := none }] := by
  refine ⟨by decide, by decide, by decide⟩

/-- C3 (amended): for an Initial-mode session, a non-empty input containing
neither "flow" nor "rag" leaves the mode Initial, returns status
"validation_error" with the mode-selection prompt repeated, and leaves
`answers`, `stepIndex` and `isComplete` unchanged; the rejected input is,
however, appended to the session's history as a user entry. -/
theorem C3_invalid_mode_selection (gen : String → Except String String)
    (s : SessionState) (inp : String)
    (hm : s.mode = "initial") (hne : inp ≠ "")
    (hflow : containsSub (pyStrip (pyLower inp)) "flow" = false)
    (hrag : containsSub (pyStrip (pyLower inp)) "rag" = false) :
    (submit_flow_step gen s inp).2.status = "validation_error" ∧
    (submit_flow_step gen s inp).2.bot_message = INVALID_MODE_MESSAGE ∧
    (submit_flow_step gen s inp).1.mode = "initial" ∧
    (submit_flow_step gen s inp).1.step_index = s.step_index ∧
    (submit_flow_step gen s inp).1.answers = s.answers ∧
    (submit_flow_step gen s inp).1.is_complete = s.is_complete ∧
    (submit_flow_step gen s inp).1.history =
      s.history ++ [{ role := "user", content := inp, key := none }] := by
  unfold submit_flow_step
  rw [if_pos hm]
  rw [if_neg hne]
  simp [hflow, hrag, hm]

/-- C3 witness: the amended theorem applied at the concrete input "hello". -/
theorem C3_witness :
    initSession.mode = "initial" ∧
    ("hello" : String) ≠ "" ∧
    containsSub (pyStrip (pyLower "hello")) "flow" = false ∧
    containsSub (pyStrip (pyLower "hello")) "rag" = false ∧
    (submit_flow_step (fun _ => .error "offline") initSession "hello").2.status =
      "validation_error" ∧
    (submit_flow_step (fun _ => .error "offline") initSession "hello").1.history =
      initSession.history ++ [{ role := "user", content := "hello", key := none }] := by
  have h := C3_invalid_mode_selection (fun _ => .error "offline") initSession "hello"
    rfl (by decide) (by decide) (by decide)
  exact ⟨rfl, by decide, by decide, by decide, h.1, h.2.2.2.2.2.2⟩

/-- C4: for a Flow-mode session at step `i < N` whose non-empty input is
rejected by the current step's field validator, the turn returns status
"validation_error" bearing the rejection reason, and the stored session state
— `answers`, `stepIndex` and `history` included — is exactly unchanged. -/
theorem C4_rejected_input_state_unchanged (gen : String → Except String String)
    (s : SessionState) (inp : String) (step : FlowStep) (msg : String)
    (hm : s.mode = "flow") (hc : s.is_complete = false)
    (hstep : CHAT_FLOW[s.step_index]? = some step) (hne : inp ≠ "")
    (hv : validateField step.key inp = .error msg) :
    (submit_flow_step gen s inp).1 = s ∧
    (submit_flow_step gen s inp).2.status = "validation_error" ∧
    (submit_flow_step gen s inp).2.bot_message =
      "Input Error: " ++ msg ++ " Please try again." ∧
    (submit_flow_step gen s inp).2.data = s.answers := by
  obtain ⟨hlt, hget⟩ := List.getElem?_eq_some_iff.mp hstep
  have hfv : flowValidate s inp =
      .error { status := "validation_error",
               bot_message := "Input Error: " ++ msg ++ " Please try again.",
               is_complete := false, data := s.answers, mode := "flow" } := by
    simp only [flowValidate]
    rw [dif_pos hlt, if_neg hne]
    rw [List.get_eq_getElem, hget, hv]
  have hni : ¬s.mode = "initial" := by rw [hm]; decide
  have hnr : ¬s.mode = "rag" := by rw [hm]; decide
  have hnc : ¬s.is_complete = true := by rw [hc]; decide
  unfold submit_flow_step
  rw [if_neg hni]
  unfold modeDispatch
  rw [if_neg hnr, if_pos hm]
  unfold flowLogic
  rw [if_neg hnc, hfv]
  exact ⟨rfl, rfl, rfl, rfl⟩

/-- C4 witness: the theorem applied at the name step with the too-short
input "ab". -/
theorem C4_witness :
    ({ initSession with mode := "flow" } : SessionState).mode = "flow" ∧
    ({ initSession with mode := "flow" } : SessionState).is_complete = false ∧
    CHAT_FLOW[({ initSession with mode := "flow" } : SessionState).step_index]? =
      some { key := "name", prompt := "Welcome! To start, what is your **full name**?",
             placeholder := "e.g., Alex Johnson", model_field := "name" } ∧
    ("ab" : String) ≠ "" ∧
    validateField "name" "ab" =
      .error "Value error, Name must be at least 3 characters long." ∧
    (submit_flow_step (fun _ => .error "offline")
      { initSession with mode := "flow" } "ab").1 =
      { initSession with mode := "flow" } ∧
    (submit_flow_step (fun _ => .error "offline")
      { initSession with mode := "flow" } "ab").2.status = "validation_error" := by
  have h := C4_rejected_input_state_unchanged (fun _ => .error "offline")
    { initSession with mode := "flow" } "ab"
    { key := "name", prompt := "Welcome! To start, what is your **full name**?",
      placeholder := "e.g., Alex Johnson", model_field := "name" }
    "Value error, Name must be at least 3 characters long."
    rfl rfl (by decide) (by decide) rfl
  exact ⟨rfl, rfl, by decide, by decide, rfl, h.1, h.2.1⟩

/-- C5: for a Flow-mode session at step `i < N` whose non-empty input is
accepted by the current step's field validator, exactly the current step's key
of `answers` is set or overwritten to the input (every other key reads the
same before and after), the user entry `{user, input}` is appended to
`history`, and `stepIndex` increases by exactly 1; if it thereby reaches `N`,
`isComplete` becomes true, the fixed completion message is emitted, and the
final `answers` are the response payload. -/
theorem C5_accepted_input_advances (gen : String → Except String String)
    (s : SessionState) (inp : String) (step : FlowStep)
    (hm : s.mode = "flow") (hc : s.is_complete = false)
    (hstep : CHAT_FLOW[s.step_index]? = some step) (hne : inp ≠ "")
    (hv : validateField step.key inp = .ok ()) :
    (submit_flow_step gen s inp).1.step_index = s.step_index + 1 ∧
    (submit_flow_step gen s inp).1.answers = dictSet s.answers step.key inp ∧
    dictGetD (submit_flow_step gen s inp).1.answers step.key "" = inp ∧
    (∀ k, k ≠ step.key →
      dictGetD (submit_flow_step gen s inp).1.answers k "" = dictGetD s.answers k "") ∧
    (∃ rest, (submit_flow_step gen s inp).1.history =
      s.history ++ { role := "user", content := inp, key := none } :: rest) ∧
    (s.step_index + 1 = CHAT_FLOW.length →
      (submit_flow_step gen s inp).1.is_complete = true ∧
      (submit_flow_step gen s inp).2.is_complete = true ∧
      (submit_flow_step gen s inp).2.bot_message = "Thank you! The flow is now complete." ∧
      (submit_flow_step gen s inp).2.data = dictSet s.answers step.key inp) := by
  obtain ⟨hlt, hget⟩ := List.getElem?_eq_some_iff.mp hstep
  have hfv : flowValidate s inp =
      .ok { s with
            answers := dictSet s.answers step.key inp,
            history := s.history ++ [{ role := "user", content := inp, key := none }],
            step_index := s.step_index + 1 } := by
    simp only [flowValidate]
    rw [dif_pos hlt, if_neg hne]
    rw [List.get_eq_getElem, hget, hv]
  have hni : ¬s.mode = "initial" := by rw [hm]; decide
  have hnr : ¬s.mode = "rag" := by rw [hm]; decide
  have hnc : ¬s.is_complete = true := by rw [hc]; decide
  have hsub : submit_flow_step gen s inp = flowNext
      { s with
        answers := dictSet s.answers step.key inp,
        history := s.history ++ [{ role := "user", content := inp, key := none }],
        step_index := s.step_index + 1 } := by
    unfold submit_flow_step
    rw [if_neg hni]
    unfold modeDispatch
    rw [if_neg hnr, if_pos hm]
    unfold flowLogic
    rw [if_neg hnc, hfv]
  rw [hsub]
  unfold flowNext
  split
  · refine ⟨rfl, rfl, ?_, ?_, ?_, ?_⟩
    · show dictGetD (dictSet s.answers step.key inp) step.key "" = inp
      rw [dictGetD_dictSet]
      simp
    · intro k hk
      show dictGetD (dictSet s.answers step.key inp) k "" = dictGetD s.answers k ""
      rw [dictGetD_dictSet]
      simp [hk]
    · exact ⟨_, List.append_assoc _ _ _⟩
    · intro habs
      have hlt2 : s.step_index + 1 < CHAT_FLOW.length := by assumption
      omega
  · refine ⟨rfl, rfl, ?_, ?_, ?_, fun _ => ⟨rfl, rfl, rfl, rfl⟩⟩
    · show dictGetD (dictSet s.answers step.key inp) step.key "" = inp
      rw [dictGetD_dictSet]
      simp
    · intro k hk
      show dictGetD (dictSet s.answers step.key inp) k "" = dictGetD s.answers k ""
      rw [dictGetD_dictSet]
      simp [hk]
    · exact ⟨[], rfl⟩

/-- C5 witness: the theorem applied at the budget step with the accepted
input "5000", which completes the flow. -/
theorem C5_witness :
    ({ mode := "flow", step_index := 3, answers := [("name", "Alex Johnson")],
       history := [], is_complete := false } : SessionState).mode = "flow" ∧
    ({ mode := "flow", step_index := 3, answers := [("name", "Alex Johnson")],
       history := [], is_complete := false } : SessionState).is_complete = false ∧
    CHAT_FLOW[(3 : Nat)]? =
      some { key := "budget",
             prompt := "What is the approximate **budget** for this project (in USD)?",
             placeholder := "e.g., 10000", model_field := "budget" } ∧
    ("5000" : String) ≠ "" ∧
    validateField "budget" "5000" = .ok () ∧
    (submit_flow_step (fun _ => .error "offline")
      { mode := "flow", step_index := 3, answers := [("name", "Alex Johnson")],
        history := [], is_complete := false } "5000").1.step_index = 3 + 1 ∧
    ((3 : Nat) + 1 = CHAT_FLOW.length →
      (submit_flow_step (fun _ => .error "offline")
        { mode := "flow", step_index := 3, answers := [("name", "Alex Johnson")],
          history := [], is_complete := false } "5000").1.is_complete = true ∧
      (submit_flow_step (fun _ => .error "offline")
        { mode := "flow", step_index := 3, answers := [("name", "Alex Johnson")],
          history := [], is_complete := false } "5000").2.is_complete = true ∧
      (submit_flow_step (fun _ => .error "offline")
        { mode := "flow", step_index := 3, answers := [("name", "Alex Johnson")],
          history := [], is_complete := false } "5000").2.bot_message =
        "Thank you! The flow is now complete." ∧
      (submit_flow_step (fun _ => .error "offline")
        { mode := "flow", step_index := 3, answers := [("name", "Alex Johnson")],
          history := [], is_complete := false } "5000").2.data =
        dictSet [("name", "Alex Johnson")] "budget" "5000") := by
  have h := C5_accepted_input_advances (fun _ => .error "offline")
    { mode := "flow", step_index := 3, answers := [("name", "Alex Johnson")],
      history := [], is_complete := false } "5000"
    { key := "budget",
      prompt := "What is the approximate **budget** for this project (in USD)?",
      placeholder := "e.g., 10000", model_field := "budget" }
    rfl rfl (by decide) (by decide) rfl
  exact ⟨rfl, rfl, by decide, by decide, rfl, h.1, h.2.2.2.2.2⟩

theorem modeDispatch_step_cases (gen : String → Except String String)
    (s : SessionState) (inp : String) :
    (modeDispatch gen s inp).1.step_index = s.step_index ∨
    ((modeDispatch gen s inp).1.step_index = s.step_index + 1 ∧
     s.step_index < CHAT_FLOW.length) := by
  unfold modeDispatch
  by_cases hr : s.mode = "rag"
  · rw [if_pos hr]; left; exact (ragLogic_frame gen s inp).1
  · rw [if_neg hr]
    by_cases hf : s.mode = "flow"
    · rw [if_pos hf]; exact flowLogic_step_cases s inp
    · rw [if_neg hf]; left; rfl

theorem submit_step_cases (gen : String → Except String String)
    (s : SessionState) (inp : String) :
    (submit_flow_step gen s inp).1.step_index = s.step_index ∨
    ((submit_flow_step gen s inp).1.step_index = s.step_index + 1 ∧
     s.step_index < CHAT_FLOW.length) := by
  simp only [submit_flow_step]
  by_cases hi : s.mode = "initial"
  · rw [if_pos hi]
    by_cases he : inp = ""
    · rw [if_pos he]; left; rfl
    · rw [if_neg he]
      by_cases hcf : containsSub (pyStrip (pyLower inp)) "flow" = true
      · rw [if_pos hcf]
        exact modeDispatch_step_cases gen { s with mode := "flow" } inp
      · rw [if_neg hcf]
        by_cases hcr : containsSub (pyStrip (pyLower inp)) "rag" = true
        · rw [if_pos hcr]; left; rfl
        · rw [if_neg hcr]; left; rfl
  · rw [if_neg hi]
    exact modeDispatch_step_cases gen s inp

/-- C6: under a submit turn, `stepIndex` never decreases and stays within
`[0, N]` where `N` is the length of the Flow Script (given it was in range
before the turn, which holds inductively from the fresh state); a reset
re-initializes the session observed for that id to `stepIndex = 0`. -/
theorem C6_step_index_monotone_bounded (gen : String → Except String String)
    (s : SessionState) (inp : String)
    (store : List (String × SessionState)) (sid : String)
    (hb : s.step_index ≤ CHAT_FLOW.length) :
    (s.step_index ≤ (submit_flow_step gen s inp).1.step_index ∧
     (submit_flow_step gen s inp).1.step_index ≤ CHAT_FLOW.length) ∧
    (get_session (reset_flow store sid).1 sid).step_index = 0 := by
  constructor
  · rcases submit_step_cases gen s inp with h | ⟨h, hlt⟩
    · rw [h]; exact ⟨Nat.le_refl _, hb⟩
    · rw [h]; exact ⟨Nat.le_succ _, Nat.succ_le_of_lt hlt⟩
  · unfold get_session lookupSession reset_flow
    rw [find?_filter_ne]
    rfl

/-- C6 witness: the theorem applied at a fresh session and an empty store. -/
theorem C6_witness :
    initSession.step_index ≤ CHAT_FLOW.length ∧
    ((initSession.step_index ≤
        (submit_flow_step (fun _ => .error "offline") initSession "").1.step_index ∧
      (submit_flow_step (fun _ => .error "offline") initSession "").1.step_index ≤
        CHAT_FLOW.length) ∧
     (get_session (reset_flow [] "s1").1 "s1").step_index = 0) :=
  ⟨by decide,
   C6_step_index_monotone_bounded (fun _ => .error "offline") initSession "" [] "s1"
     (by decide)⟩

/-- C7: in a RAG-mode session every turn keeps `isComplete` false — in the
stored state and in the response — and never modifies `stepIndex` or
`answers`. -/
theorem C7_rag_frame (gen : String → Except String String)
    (s : SessionState) (inp : String)
    (hm : s.mode = "rag") (hc : s.is_complete = false) :
    (submit_flow_step gen s inp).1.is_complete = false ∧
    (submit_flow_step gen s inp).2.is_complete = false ∧
    (submit_flow_step gen s inp).1.step_index = s.step_index ∧
    (submit_flow_step gen s inp).1.answers = s.answers := by
  have hni : ¬s.mode = "initial" := by rw [hm]; decide
  unfold submit_flow_step
  rw [if_neg hni]
  unfold modeDispatch
  rw [if_pos hm]
  have h := ragLogic_frame gen s inp
  exact ⟨h.2.2.2.1.trans hc, h.2.2.2.2.1, h.1, h.2.1⟩

/-- C7 witness: the theorem applied with a succeeding generator. -/
theorem C7_witness :
    ({ initSession with mode := "rag" } : SessionState).mode = "rag" ∧
    ({ initSession with mode := "rag" } : SessionState).is_complete = false ∧
    ((submit_flow_step (fun _ => .ok "an answer")
        { initSession with mode := "rag" } "hi").1.is_complete = false ∧
     (submit_flow_step (fun _ => .ok "an answer")
        { initSession with mode := "rag" } "hi").2.is_complete = false ∧
     (submit_flow_step (fun _ => .ok "an answer")
        { initSession with mode := "rag" } "hi").1.step_index =
       ({ initSession with mode := "rag" } : SessionState).step_index ∧
     (submit_flow_step (fun _ => .ok "an answer")
        { initSession with mode := "rag" } "hi").1.answers =
       ({ initSession with mode := "rag" } : SessionState).answers) :=
  ⟨rfl, rfl,
   C7_rag_frame (fun _ => .ok "an answer") { initSession with mode := "rag" } "hi"
     rfl rfl⟩

/-- C8: per-field validation is characterized exactly: `name` is rejected iff
the value is empty or shorter than 3 characters, `projectType` iff it splits
on whitespace into fewer than 2 tokens, `duration` iff it does not parse as
an integer or parses to ≤ 0, and `budget` iff it does not parse as an integer
or parses to ≤ 100; in every other case the value is accepted. Validation of
one field takes only that field's name and raw value — `validateField`, like
the source's dynamically built single-required-field `TempValidator`, never
requires any other field to be present. -/
theorem C8_validation_rules (v : String) :
    (validateField "name" v = .ok () ↔ ¬(v = "" ∨ v.length < 3)) ∧
    (validateField "projectType" v = .ok () ↔ ¬((pySplit v).length < 2)) ∧
    (validateField "duration" v = .ok () ↔
      ∃ n : Int, pythonInt v = some n ∧ ¬(n ≤ 0)) ∧
    (validateField "budget" v = .ok () ↔
      ∃ n : Int, pythonInt v = some n ∧ ¬(n ≤ 100)) := by
  refine ⟨?_, ?_, ?_, ?_⟩
  · by_cases h : v = "" ∨ v.length < 3 <;>
      simp [validateField, validate_name, h]
  · have hsplit : (v = "" ∨ (pySplit v).length < 2) ↔ (pySplit v).length < 2 := by
      constructor
      · rintro (rfl | h)
        · decide
        · exact h
      · exact Or.inr
    by_cases h : (pySplit v).length < 2
    · simp [validateField, validate_project_type, hsplit.mpr h, h]
    · have hv : v ≠ "" := fun hveq => h (by rw [hveq]; decide)
      simp [validateField, validate_project_type, hv, h]
  · rcases hp : pythonInt v with _ | n
    · simp [validateField, validate_duration, hp]
    · by_cases hn : n ≤ 0
      · simp [validateField, validate_duration, hp, hn]
      · simp [validateField, validate_duration, hp, hn]
        omega
  · rcases hp : pythonInt v with _ | n
    · simp [validateField, validate_budget, hp]
    · by_cases hn : n ≤ 100
      · simp [validateField, validate_budget, hp, hn]
      · simp [validateField, validate_budget, hp, hn]
        omega

/-- C9: the hybrid router dispatches to the retrieval-grounded path exactly
when the classifier output, stripped of surrounding whitespace, equals "RAG"
case-insensitively; every other output — including an unrecognized token —
takes the direct generation path, so routing never fails. -/
theorem C9_router_dispatch (s : String) :
    (routeClassification s = .rag ↔ pyUpper (pyStrip s) = pyUpper "RAG") ∧
    (routeClassification s ≠ .rag → routeClassification s = .llm) := by
  have hr : pyUpper "RAG" = "RAG" := by decide
  rw [hr]
  unfold routeClassification
  by_cases h : pyUpper (pyStrip s) = "RAG"
  · rw [if_pos h]
    exact ⟨⟨fun _ => h, fun _ => rfl⟩, fun hne => absurd rfl hne⟩
  · rw [if_neg h]
    exact ⟨⟨fun hco => absurd hco (by decide), fun hh => absurd hh h⟩, fun _ => rfl⟩

/-- C10: in an Initial-mode session, an input containing both "flow" and
"rag" (case-insensitively) selects Flow mode, because the flow check is
performed before the rag check. -/
theorem C10_flow_precedence (gen : String → Except String String)
    (s : SessionState) (inp : String)
    (hm : s.mode = "initial") (hne : inp ≠ "")
    (hflow : containsSub (pyStrip (pyLower inp)) "flow" = true)
    (hrag : containsSub (pyStrip (pyLower inp)) "rag" = true) :
    (submit_flow_step gen s inp).1.mode = "flow" ∧
    (submit_flow_step gen s inp).2.mode = "flow" := by
  unfold submit_flow_step
  rw [if_pos hm, if_neg hne]
  simp only [hflow, if_true]
  unfold modeDispatch
  have hmode : ({ s with mode := "flow" } : SessionState).mode = "flow" := rfl
  rw [if_neg (by rw [hmode]; decide), if_pos hmode]
  have h := flowLogic_mode { s with mode := "flow" } inp
  exact ⟨h.1.trans hmode, h.2⟩

/-- C10 witness: the theorem applied at the concrete input "flow or rag". -/
theorem C10_witness :
    initSession.mode = "initial" ∧
    ("flow or rag" : String) ≠ "" ∧
    containsSub (pyStrip (pyLower "flow or rag")) "flow" = true ∧
    containsSub (pyStrip (pyLower "flow or rag")) "rag" = true ∧
    ((submit_flow_step (fun _ => .error "offline") initSession "flow or rag").1.mode =
      "flow" ∧
     (submit_flow_step (fun _ => .error "offline") initSession "flow or rag").2.mode =
      "flow") :=
  ⟨rfl, by decide, by decide, by decide,
   C10_flow_precedence (fun _ => .error "offline") initSession "flow or rag"
     rfl (by decide) (by decide) (by decide)⟩

end Chatbot
